import Mathlib

/-!
Verification of the cubez example application (rendering driver core).

The source is a Go program (src/examples/exampleapp.go and the ballistic
example main file).  We build a shallow embedding:

* float32/float64 values are modelled as rationals (exact arithmetic; every
  constant appearing in the program is exactly representable),
* the mgl32 math library types (Vec3, Quat, Mat4) are embedded following the
  mgl32 source: Mat4 is a 16-entry column-major matrix, Mul4 is the usual
  matrix product written out entrywise, Translate3D / Scale3D / Quat.Mat4
  follow the library formulas,
* GL and GLFW side effects are modelled by explicit state passing and by
  event traces,
* the Go map caches are modelled as association lists.
-/

/-- A 3-component vector (mgl32.Vec3, components modelled as rationals). -/
structure Vec3 where
  x : ℚ
  y : ℚ
  z : ℚ
  deriving DecidableEq, Repr

/-- A 4-component vector (mgl32.Vec4). -/
structure Vec4 where
  x : ℚ
  y : ℚ
  z : ℚ
  w : ℚ
  deriving DecidableEq, Repr

/-- A quaternion (mgl32.Quat): a scalar W and a vector part V. -/
structure Quat where
  w : ℚ
  v : Vec3
  deriving DecidableEq, Repr

/-- The Go zero value of mgl32.Quat: all four components zero. -/
def Quat.zero : Quat := ⟨0, ⟨0, 0, 0⟩⟩

/-- The identity quaternion (mgl32.QuatIdent): W = 1, V = 0. -/
def Quat.ident : Quat := ⟨1, ⟨0, 0, 0⟩⟩

/-- A 4x4 matrix in mgl32 column-major layout: entry m(i)(j) is row i,
column j, stored as field e(4*j+i). -/
structure Mat4 where
  e0 : ℚ
  e1 : ℚ
  e2 : ℚ
  e3 : ℚ
  e4 : ℚ
  e5 : ℚ
  e6 : ℚ
  e7 : ℚ
  e8 : ℚ
  e9 : ℚ
  e10 : ℚ
  e11 : ℚ
  e12 : ℚ
  e13 : ℚ
  e14 : ℚ
  e15 : ℚ
  deriving DecidableEq, Repr

/-- The identity matrix (mgl32.Ident4). -/
def Mat4.ident : Mat4 :=
  ⟨1, 0, 0, 0, 0, 1, 0, 0, 0, 0, 1, 0, 0, 0, 0, 1⟩

/-- Matrix product, transcribed entrywise from mgl32 Mat4.Mul4 (column-major
indexing: m1[i]*m2[0] + m1[i+4]*m2[1] + ...). -/
def Mat4.mul4 (m1 m2 : Mat4) : Mat4 :=
  ⟨m1.e0 * m2.e0 + m1.e4 * m2.e1 + m1.e8 * m2.e2 + m1.e12 * m2.e3,
   m1.e1 * m2.e0 + m1.e5 * m2.e1 + m1.e9 * m2.e2 + m1.e13 * m2.e3,
   m1.e2 * m2.e0 + m1.e6 * m2.e1 + m1.e10 * m2.e2 + m1.e14 * m2.e3,
   m1.e3 * m2.e0 + m1.e7 * m2.e1 + m1.e11 * m2.e2 + m1.e15 * m2.e3,
   m1.e0 * m2.e4 + m1.e4 * m2.e5 + m1.e8 * m2.e6 + m1.e12 * m2.e7,
   m1.e1 * m2.e4 + m1.e5 * m2.e5 + m1.e9 * m2.e6 + m1.e13 * m2.e7,
   m1.e2 * m2.e4 + m1.e6 * m2.e5 + m1.e10 * m2.e6 + m1.e14 * m2.e7,
   m1.e3 * m2.e4 + m1.e7 * m2.e5 + m1.e11 * m2.e6 + m1.e15 * m2.e7,
   m1.e0 * m2.e8 + m1.e4 * m2.e9 + m1.e8 * m2.e10 + m1.e12 * m2.e11,
   m1.e1 * m2.e8 + m1.e5 * m2.e9 + m1.e9 * m2.e10 + m1.e13 * m2.e11,
   m1.e2 * m2.e8 + m1.e6 * m2.e9 + m1.e10 * m2.e10 + m1.e14 * m2.e11,
   m1.e3 * m2.e8 + m1.e7 * m2.e9 + m1.e11 * m2.e10 + m1.e15 * m2.e11,
   m1.e0 * m2.e12 + m1.e4 * m2.e13 + m1.e8 * m2.e14 + m1.e12 * m2.e15,
   m1.e1 * m2.e12 + m1.e5 * m2.e13 + m1.e9 * m2.e14 + m1.e13 * m2.e15,
   m1.e2 * m2.e12 + m1.e6 * m2.e13 + m1.e10 * m2.e14 + m1.e14 * m2.e15,
   m1.e3 * m2.e12 + m1.e7 * m2.e13 + m1.e11 * m2.e14 + m1.e15 * m2.e15⟩

/-- mgl32.Translate3D: identity with the translation in the fourth column
(entries 12..14 in column-major storage). -/
def translate3D (tx ty tz : ℚ) : Mat4 :=
  ⟨1, 0, 0, 0, 0, 1, 0, 0, 0, 0, 1, 0, tx, ty, tz, 1⟩

/-- mgl32.Scale3D: the diagonal scale matrix diag(sx, sy, sz, 1). -/
def scale3D (sx sy sz : ℚ) : Mat4 :=
  ⟨sx, 0, 0, 0, 0, sy, 0, 0, 0, 0, sz, 0, 0, 0, 0, 1⟩

/-- mgl32 Quat.Mat4: the homogeneous rotation matrix of a quaternion,
transcribed from the library source (column-major entries). -/
def Quat.mat4 (q : Quat) : Mat4 :=
  let w := q.w
  let x := q.v.x
  let y := q.v.y
  let z := q.v.z
  ⟨1 - 2 * y * y - 2 * z * z, 2 * x * y + 2 * w * z, 2 * x * z - 2 * w * y, 0,
   2 * x * y - 2 * w * z, 1 - 2 * x * x - 2 * z * z, 2 * y * z + 2 * w * x, 0,
   2 * x * z + 2 * w * y, 2 * y * z - 2 * w * x, 1 - 2 * x * x - 2 * y * y, 0,
   0, 0, 0, 1⟩

/-- The Renderable record from exampleapp.go.  GPU handles are modelled as
natural numbers, FaceCount as an integer (Go int). -/
structure Renderable where
  Shader : ℕ
  Tex0 : ℕ
  Color : Vec4
  Vao : ℕ
  VertVBO : ℕ
  UvVBO : ℕ
  NormsVBO : ℕ
  ElementsVBO : ℕ
  FaceCount : ℤ
  Scale : Vec3
  Location : Vec3
  Rotation : Quat
  LocalRotation : Quat
  deriving DecidableEq, Repr

/-- NewRenderable: Go new(Renderable) zero-initializes every field, then the
constructor sets Scale to (1,1,1).  Both rotation quaternions are left at the
Go zero value (all four components zero). -/
def NewRenderable : Renderable :=
  { Shader := 0
    Tex0 := 0
    Color := ⟨0, 0, 0, 0⟩
    Vao := 0
    VertVBO := 0
    UvVBO := 0
    NormsVBO := 0
    ElementsVBO := 0
    FaceCount := 0
    Scale := ⟨1, 1, 1⟩
    Location := ⟨0, 0, 0⟩
    Rotation := Quat.zero
    LocalRotation := Quat.zero }

/-- GetTransformMat4, transcribed from the source: builds the scale,
translation, local-rotation and world-rotation matrices and composes them by
the method chain rotMat.Mul4(transMat).Mul4(localRotMat).Mul4(scaleMat),
which in Go associates to the left. -/
def Renderable.GetTransformMat4 (r : Renderable) : Mat4 :=
  let scaleMat := scale3D r.Scale.x r.Scale.y r.Scale.z
  let transMat := translate3D r.Location.x r.Location.y r.Location.z
  let localRotMat := r.LocalRotation.mat4
  let rotMat := r.Rotation.mat4
  ((rotMat.mul4 transMat).mul4 localRotMat).mul4 scaleMat

/-- The world transform as the specification words it: the matrix product
Rotation * Translation(Location) * LocalRotation * Scale(Scale), written as
a right-nested product (world rotation outermost, scale innermost). -/
def worldTransformSpec (r : Renderable) : Mat4 :=
  (r.Rotation.mat4).mul4
    ((translate3D r.Location.x r.Location.y r.Location.z).mul4
      ((r.LocalRotation.mat4).mul4 (scale3D r.Scale.x r.Scale.y r.Scale.z)))

/-! ## Geometry builder: CreateCube -/

/-- The flat vertex-position array of CreateCube (24 vertices, 3 components
each), transcribed row for row from the source, as a function of the six
corner coordinates. -/
def cubeVerts (xmin ymin zmin xmax ymax zmax : ℚ) : List ℚ :=
  [xmax, ymax, zmax, xmin, ymax, zmax, xmin, ymin, zmax, xmax, ymin, zmax,
   xmax, ymax, zmin, xmax, ymax, zmax, xmax, ymin, zmax, xmax, ymin, zmin,
   xmax, ymax, zmin, xmin, ymax, zmin, xmin, ymax, zmax, xmax, ymax, zmax,
   xmin, ymax, zmax, xmin, ymax, zmin, xmin, ymin, zmin, xmin, ymin, zmax,
   xmax, ymin, zmax, xmin, ymin, zmax, xmin, ymin, zmin, xmax, ymin, zmin,
   xmin, ymax, zmin, xmax, ymax, zmin, xmax, ymin, zmin, xmin, ymin, zmin]

/-- The triangle index array of CreateCube (36 indices, 2 triangles per
face), transcribed from the source. -/
def cubeIndexes : List ℕ :=
  [0, 1, 2, 2, 3, 0,
   4, 5, 6, 6, 7, 4,
   8, 9, 10, 10, 11, 8,
   12, 13, 14, 14, 15, 12,
   16, 17, 18, 18, 19, 16,
   20, 21, 22, 22, 23, 20]

/-- The UV array of CreateCube (24 pairs), transcribed from the source. -/
def cubeUVs : List ℚ :=
  [1, 1, 0, 1, 0, 0, 1, 0,
   1, 1, 0, 1, 0, 0, 1, 0,
   1, 1, 0, 1, 0, 0, 1, 0,
   1, 1, 0, 1, 0, 0, 1, 0,
   1, 1, 0, 1, 0, 0, 1, 0,
   1, 1, 0, 1, 0, 0, 1, 0]

/-- The normal array of CreateCube (24 normals, 3 components each),
transcribed from the source; face order front, right, top, left, bottom,
back. -/
def cubeNormals : List ℚ :=
  [0, 0, 1, 0, 0, 1, 0, 0, 1, 0, 0, 1,
   1, 0, 0, 1, 0, 0, 1, 0, 0, 1, 0, 0,
   0, 1, 0, 0, 1, 0, 0, 1, 0, 0, 1, 0,
   -1, 0, 0, -1, 0, 0, -1, 0, 0, -1, 0, 0,
   0, -1, 0, 0, -1, 0, 0, -1, 0, 0, -1, 0,
   0, 0, -1, 0, 0, -1, 0, 0, -1, 0, 0, -1]

/-- The mesh data CreateCube constructs and uploads into the four static GPU
buffers (positions, UVs, normals, indices). -/
structure Mesh where
  verts : List ℚ
  uvs : List ℚ
  normals : List ℚ
  indexes : List ℕ
  deriving DecidableEq, Repr

/-- CreateCube: builds the cube mesh for the given corner coordinates and a
Renderable via NewRenderable with FaceCount set to 12.  The GL buffer
uploads are modelled by returning the uploaded Mesh data alongside the
Renderable; the generated GL handles (Vao and the four VBOs) are modelled as
consecutive fresh ids. -/
def CreateCube (xmin ymin zmin xmax ymax zmax : ℚ) : Renderable × Mesh :=
  ({ NewRenderable with
      FaceCount := 12
      Vao := 1
      VertVBO := 2
      UvVBO := 3
      NormsVBO := 4
      ElementsVBO := 5 },
   { verts := cubeVerts xmin ymin zmin xmax ymax zmax
     uvs := cubeUVs
     normals := cubeNormals
     indexes := cubeIndexes })

/-- The number of vertex positions of a mesh: the flat position array holds
three floats per vertex. -/
def Mesh.vertexCount (m : Mesh) : ℕ := m.verts.length / 3

/-- The normal of vertex v of face f in the cube mesh, read from the flat
normal array (12 floats per face, 3 per vertex). -/
def cubeFaceNormal (f : Fin 6) (v : Fin 4) : Vec3 :=
  ⟨cubeNormals.getD (12 * f.val + 3 * v.val) 0,
   cubeNormals.getD (12 * f.val + 3 * v.val + 1) 0,
   cubeNormals.getD (12 * f.val + 3 * v.val + 2) 0⟩

/-- Negation of a vector, componentwise. -/
def Vec3.neg (a : Vec3) : Vec3 := ⟨-a.x, -a.y, -a.z⟩

/-- The six axis-aligned unit vectors. -/
def axisUnitVectors : List Vec3 :=
  [⟨1, 0, 0⟩, ⟨-1, 0, 0⟩, ⟨0, 1, 0⟩, ⟨0, -1, 0⟩, ⟨0, 0, 1⟩, ⟨0, 0, -1⟩]

/-! ## Shader compile and link: LoadShaderProgram -/

/-- The GL outcomes LoadShaderProgram can observe: whether the vertex shader
compiles, whether the fragment shader compiles, and whether the program
links. -/
structure GLShaderEnv where
  vsCompileOk : Bool
  fsCompileOk : Bool
  linkOk : Bool
  deriving DecidableEq, Repr

/-- The observable outcome of LoadShaderProgram: the returned program handle
(none models a non-nil Go error return), the shader objects created during
the call in creation order, and the shader objects deleted by the time the
function has returned. -/
structure ShaderResult where
  result : Option ℕ
  created : List ℕ
  deleted : List ℕ
  deriving DecidableEq, Repr

/-- LoadShaderProgram, transcribed from the source with GL handles modelled
as consecutive ids (program 1, vertex shader 2, fragment shader 3) and Go
defer semantics resolved explicitly: a deferred gl.DeleteShader call runs at
function return only if its defer statement was reached before the return,
and registered defers run in last-in-first-out order.  In the source the
defer for the vertex shader stands after the vertex compile-status check,
and the defer for the fragment shader after the fragment compile-status
check. -/
def LoadShaderProgram (env : GLShaderEnv) : ShaderResult :=
  let vs := 2
  if env.vsCompileOk = false then
    -- return on vertex compile failure: no defer registered yet
    { result := none, created := [vs], deleted := [] }
  else
    let fs := 3
    if env.fsCompileOk = false then
      -- return on fragment compile failure: only the vs defer was registered
      { result := none, created := [vs, fs], deleted := [vs] }
    else if env.linkOk = false then
      -- return on link failure: both defers registered, run LIFO
      { result := none, created := [vs, fs], deleted := [fs, vs] }
    else
      { result := some 1, created := [vs, fs], deleted := [fs, vs] }

/-! ## Uniform and attribute location caches -/

/-- The result of one call of a location getter: the returned slot, the
cache after the call, and whether the GL introspection query was invoked
during the call. -/
structure CacheResult where
  val : ℤ
  cache : List (String × ℤ)
  queried : Bool
  deriving DecidableEq, Repr

/-- getUniformLocation, transcribed from the source.  The process-wide Go
map uniCache is modelled as an association list threaded through the call;
the GL introspection gl.GetUniformLocation is modelled by the oracle
glGet, a function of the program handle and the name (returning -1 for a
name absent from the program).  Note the cache is consulted and filled by
name alone: the program handle is not part of the key. -/
def getUniformLocation (glGet : ℕ → String → ℤ) (cache : List (String × ℤ))
    (prog : ℕ) (name : String) : CacheResult :=
  match cache.lookup name with
  | some ul => ⟨ul, cache, false⟩
  | none =>
      let ul := glGet prog name
      -- cache even if it returns -1 so that it does not repeatedly check
      ⟨ul, (name, ul) :: cache, true⟩

/-- getAttribLocation, transcribed from the source; identical shape to
getUniformLocation with its own cache (attrCache) and the oracle modelling
gl.GetAttribLocation. -/
def getAttribLocation (glGet : ℕ → String → ℤ) (cache : List (String × ℤ))
    (prog : ℕ) (name : String) : CacheResult :=
  match cache.lookup name with
  | some al => ⟨al, cache, false⟩
  | none =>
      let al := glGet prog name
      ⟨al, (name, al) :: cache, true⟩

/-- A concrete introspection oracle for the counterexample: program 1 binds
every name to slot 3, every other program binds it to slot 5. -/
def glGetTwoPrograms : ℕ → String → ℤ :=
  fun prog _ => if prog = 1 then 3 else 5

/-! ## Per-frame physics update (ballistic example main file) -/

/-- A cubez math quaternion (m.Quat), indexed r, i, j, k as the source reads
Orientation[0] .. Orientation[3]. -/
structure PhysQuat where
  r : ℚ
  i : ℚ
  j : ℚ
  k : ℚ
  deriving DecidableEq, Repr

/-- The part of a cubez RigidBody the example reads and advances: position
and orientation.  Components are m.Real (float64), modelled as rationals;
the float32 conversions in the example are modelled as the identity. -/
structure PhysBody where
  Position : Vec3
  Orientation : PhysQuat
  deriving DecidableEq, Repr

/-- The part of a cubez CollisionCube the example uses: its rigid body and
its half sizes. -/
structure CollisionCube where
  Body : PhysBody
  HalfSize : Vec3
  deriving DecidableEq, Repr

/-- A cubez CollisionPlane as built by NewCollisionPlane: a normal and an
offset. -/
structure CollisionPlane where
  Normal : Vec3
  Offset : ℚ
  deriving DecidableEq, Repr

/-- The external physics engine interface the example consumes (the cubez
package is an external collaborator; its operations are oracles here).
Contact is the engine's contact type, left abstract. -/
structure PhysicsEngine (Contact : Type) where
  integrate : PhysBody → ℚ → PhysBody
  calculateDerivedData : CollisionCube → CollisionCube
  checkAgainstHalfSpace : CollisionCube → CollisionPlane → Bool × List Contact

/-- The externally visible physics calls the update step makes, in order. -/
inductive PhysEvent (Contact : Type) where
  | integrate (delta : ℚ)
  | calculateDerivedData
  | checkAgainstHalfSpace (plane : CollisionPlane)
  | resolveContacts (maxIterations : ℕ) (contacts : List Contact) (delta : ℚ)

/-- updateObjects, transcribed from the example: integrates the collider's
body by the delta, recalculates the collider's derived data, then copies the
body's position into the Renderable's Location and its orientation into the
Renderable's LocalRotation (reading the body after both calls, as the Go
code reads the mutated globals). -/
def updateObjects {Contact : Type} (E : PhysicsEngine Contact)
    (collider : CollisionCube) (cube : Renderable) (delta : ℚ) :
    (CollisionCube × Renderable) × List (PhysEvent Contact) :=
  let col1 := E.calculateDerivedData
    { collider with Body := E.integrate collider.Body delta }
  let cube1 := { cube with
    Location := col1.Body.Position
    LocalRotation :=
      ⟨col1.Body.Orientation.r,
        ⟨col1.Body.Orientation.i, col1.Body.Orientation.j, col1.Body.Orientation.k⟩⟩ }
  ((col1, cube1), [.integrate delta, .calculateDerivedData])

/-- generateContacts, transcribed from the example: builds the fixed ground
plane with normal (0,1,0) and offset 0 and checks the collider against that
half-space. -/
def generateContacts {Contact : Type} (E : PhysicsEngine Contact)
    (collider : CollisionCube) :
    (Bool × List Contact) × List (PhysEvent Contact) :=
  let groundPlane : CollisionPlane := ⟨⟨0, 1, 0⟩, 0⟩
  (E.checkAgainstHalfSpace collider groundPlane,
    [.checkAgainstHalfSpace groundPlane])

/-- updateCallback, transcribed from the example: runs updateObjects, then
generateContacts, and resolves the contacts with a maximum iteration count
of the contact count times 8 only when contacts were found. -/
def updateCallback {Contact : Type} (E : PhysicsEngine Contact)
    (collider : CollisionCube) (cube : Renderable) (delta : ℚ) :
    (CollisionCube × Renderable) × List (PhysEvent Contact) :=
  let (s1, evs1) := updateObjects E collider cube delta
  let (res, evs2) := generateContacts E s1.1
  let evs3 :=
    if res.1 then [.resolveContacts (res.2.length * 8) res.2 delta] else []
  (s1, evs1 ++ evs2 ++ evs3)

/-! ## The render loop -/

/-- The externally visible actions of one render loop iteration. -/
inductive LoopEvent where
  | update (delta : ℚ)
  | render (delta : ℚ)
  | swapBuffers
  | pollEvents
  deriving DecidableEq, Repr

/-- The application state threaded through the loop: the GLFW window's
should-close flag plus the application data the callbacks may mutate. -/
structure AppState (α : Type) where
  shouldClose : Bool
  data : α
  deriving DecidableEq, Repr

/-- The loop's collaborators: the two optional callbacks (OnUpdate and
OnRender, Go nil modelled by none), the buffer swap and the event poll
(both may mutate the state, and in particular may set the should-close
flag, as the escape key handler does during event polling), and the
monotone wall clock: now k is the value of the k-th call of time.Now(). -/
structure LoopEnv (α : Type) where
  onUpdate : Option (ℚ → AppState α → AppState α)
  onRender : Option (ℚ → AppState α → AppState α)
  swapBuffers : AppState α → AppState α
  pollEvents : AppState α → AppState α
  now : ℕ → ℚ

/-- The events one loop iteration emits for a given delta: the update
callback if present, then the render callback if present, then buffer swap
and event poll. -/
def loopIterEvents {α : Type} (env : LoopEnv α) (delta : ℚ) : List LoopEvent :=
  (match env.onUpdate with | some _ => [.update delta] | none => []) ++
  (match env.onRender with | some _ => [.render delta] | none => []) ++
  [.swapBuffers, .pollEvents]

/-- RenderLoop body, transcribed from the source and indexed by fuel (the
number of remaining iterations to observe).  Each iteration first checks the
should-close flag; when it is clear it samples the clock, computes the delta
against the last sample, runs the update callback, the render callback, the
buffer swap and the event poll in that order, and recurses with the new last
sample.  Returns the emitted events, the deltas of the iterations run, and
the final state. -/
def renderLoopAux {α : Type} (env : LoopEnv α) :
    ℕ → ℕ → ℚ → AppState α → List LoopEvent × List ℚ × AppState α
  | 0, _, _, s => ([], [], s)
  | fuel + 1, callIdx, lastRenderTime, s =>
    if s.shouldClose then ([], [], s)
    else
      let loopTime := env.now callIdx
      let deltaF := loopTime - lastRenderTime
      let s1 := match env.onUpdate with | some f => f deltaF s | none => s
      let s2 := match env.onRender with | some f => f deltaF s1 | none => s1
      let s3 := env.swapBuffers s2
      let s4 := env.pollEvents s3
      let rest := renderLoopAux env fuel (callIdx + 1) loopTime s4
      (loopIterEvents env deltaF ++ rest.1, deltaF :: rest.2.1, rest.2.2)

/-- RenderLoop: sets the last render time from the clock (call 0) before the
loop starts, then runs the loop; the first iteration samples call 1. -/
def RenderLoop {α : Type} (env : LoopEnv α) (fuel : ℕ) (s : AppState α) :
    List LoopEvent × List ℚ × AppState α :=
  renderLoopAux env fuel 1 (env.now 0) s

/-- A concrete loop environment for the C8 witness: identity callbacks, an
event poll that sets the should-close flag (as the escape handler does), and
a constant clock. -/
def envPollCloses : LoopEnv Unit :=
  ⟨some (fun _ s => s), some (fun _ s => s), id,
    fun s => ⟨true, s.data⟩, fun _ => 0⟩

theorem Mat4.mul4_assoc (a b c : Mat4) :
    (a.mul4 b).mul4 c = a.mul4 (b.mul4 c) := by
  simp only [Mat4.mul4, Mat4.mk.injEq]
  refine ⟨?_, ?_, ?_, ?_, ?_, ?_, ?_, ?_, ?_, ?_, ?_, ?_, ?_, ?_, ?_, ?_⟩ <;> ring

/-- C1: GetTransformMat4 returns exactly the product
Rotation * Translation(Location) * LocalRotation * Scale(Scale), with world
rotation outermost and scale innermost. -/
theorem getTransformMat4_eq_worldTransformSpec (r : Renderable) :
    r.GetTransformMat4 = worldTransformSpec r := by
  unfold Renderable.GetTransformMat4 worldTransformSpec
  rw [Mat4.mul4_assoc, Mat4.mul4_assoc]

/-- C10 counterexample: on a freshly constructed Renderable the two rotation
quaternions are the zero quaternion, yet GetTransformMat4 is the identity
matrix, because the quaternion-to-matrix conversion maps the zero quaternion
to the identity matrix.  This refutes the claim that the result is not the
identity until the rotations are set. -/
theorem newRenderable_transform_is_identity :
    NewRenderable.Rotation = Quat.zero ∧
    NewRenderable.LocalRotation = Quat.zero ∧
    NewRenderable.GetTransformMat4 = Mat4.ident := by
  refine ⟨rfl, rfl, ?_⟩
  norm_num [NewRenderable, Renderable.GetTransformMat4, Quat.mat4, Quat.zero,
    Mat4.mul4, scale3D, translate3D, Mat4.ident]

/-- C10 amended: NewRenderable has Scale (1,1,1), zero-valued Rotation and
LocalRotation quaternions (all four components zero, distinct from the
identity quaternion), Location (0,0,0), and its GetTransformMat4 is the
identity matrix, since the conversion sends the zero quaternion to the
identity matrix. -/
theorem newRenderable_fields_and_transform :
    NewRenderable.Scale = ⟨1, 1, 1⟩ ∧
    NewRenderable.Location = ⟨0, 0, 0⟩ ∧
    NewRenderable.Rotation = Quat.zero ∧
    NewRenderable.LocalRotation = Quat.zero ∧
    Quat.zero ≠ Quat.ident ∧
    Quat.zero.mat4 = Mat4.ident ∧
    NewRenderable.GetTransformMat4 = Mat4.ident := by
  refine ⟨rfl, rfl, rfl, rfl, by decide, ?_, ?_⟩ <;>
    norm_num [NewRenderable, Renderable.GetTransformMat4, Quat.mat4, Quat.zero,
      Mat4.mul4, scale3D, translate3D, Mat4.ident]

/-- C4: for every pair of min/max corners, CreateCube yields exactly 24
vertex positions, 36 triangle indices, a FaceCount of 12, and every index
value is strictly below 24. -/
theorem createCube_counts (xmin ymin zmin xmax ymax zmax : ℚ) :
    (CreateCube xmin ymin zmin xmax ymax zmax).2.vertexCount = 24 ∧
    (CreateCube xmin ymin zmin xmax ymax zmax).2.indexes.length = 36 ∧
    (CreateCube xmin ymin zmin xmax ymax zmax).1.FaceCount = 12 ∧
    ∀ i ∈ (CreateCube xmin ymin zmin xmax ymax zmax).2.indexes, i < 24 := by
  have hlen : (cubeVerts xmin ymin zmin xmax ymax zmax).length = 72 := rfl
  have hidx : (CreateCube xmin ymin zmin xmax ymax zmax).2.indexes = cubeIndexes := rfl
  refine ⟨?_, rfl, rfl, ?_⟩
  · show (cubeVerts xmin ymin zmin xmax ymax zmax).length / 3 = 24
    rw [hlen]
  · rw [hidx]
    decide

/-- C5: in the cube mesh the 4 normals of each of the 6 faces agree within
the face and are one of the 6 axis-aligned unit vectors, and the normals of
opposite face pairs (front and back, right and left, top and bottom) are
negations of each other. -/
theorem createCube_normals :
    (∀ f : Fin 6, ∀ v : Fin 4, cubeFaceNormal f v = cubeFaceNormal f 0) ∧
    (∀ f : Fin 6, cubeFaceNormal f 0 ∈ axisUnitVectors) ∧
    cubeFaceNormal 0 0 = (cubeFaceNormal 5 0).neg ∧
    cubeFaceNormal 1 0 = (cubeFaceNormal 3 0).neg ∧
    cubeFaceNormal 2 0 = (cubeFaceNormal 4 0).neg := by
  refine ⟨?_, ?_, ?_, ?_, ?_⟩ <;> decide

/-- C3 counterexample: on the vertex-compile-failure exit path the vertex
shader object is created but never released (its deferred delete is
registered only after the compile-status check, which returns first), so the
per-stage shader objects are not released on every exit path. -/
theorem loadShaderProgram_leaks_on_vertex_failure :
    (LoadShaderProgram ⟨false, true, true⟩).created = [2] ∧
    (LoadShaderProgram ⟨false, true, true⟩).deleted = [] := by
  decide

/-- C3 amended: LoadShaderProgram releases both intermediate shader objects
on the success path and on the link-failure path; on a fragment compile
failure only the vertex shader is released (the fragment shader leaks); on a
vertex compile failure no shader object is released (the vertex shader
leaks). -/
theorem loadShaderProgram_release_paths :
    ((LoadShaderProgram ⟨true, true, true⟩).result = some 1 ∧
      (LoadShaderProgram ⟨true, true, true⟩).deleted = [3, 2]) ∧
    ((LoadShaderProgram ⟨true, true, false⟩).result = none ∧
      (LoadShaderProgram ⟨true, true, false⟩).deleted = [3, 2]) ∧
    (∀ b : Bool, (LoadShaderProgram ⟨true, false, b⟩).result = none ∧
      (LoadShaderProgram ⟨true, false, b⟩).deleted = [2]) ∧
    (∀ b c : Bool, (LoadShaderProgram ⟨false, b, c⟩).result = none ∧
      (LoadShaderProgram ⟨false, b, c⟩).deleted = []) := by
  decide

/-- C2 counterexample: the caches are keyed by name alone, so with two
distinct programs that bind the same uniform name to different slots
(program 1 to slot 3, program 2 to slot 5), a lookup for program 2 after a
lookup for program 1 returns program 1's cached slot 3 rather than program
2's own slot 5; likewise for the attribute cache. -/
theorem locationCaches_collide_across_programs :
    (getUniformLocation glGetTwoPrograms
        (getUniformLocation glGetTwoPrograms [] 1 "MVP_MATRIX").cache
        2 "MVP_MATRIX").val = 3 ∧
    glGetTwoPrograms 2 "MVP_MATRIX" = 5 ∧
    (getAttribLocation glGetTwoPrograms
        (getAttribLocation glGetTwoPrograms [] 1 "VERTEX_POSITION").cache
        2 "VERTEX_POSITION").val = 3 ∧
    glGetTwoPrograms 2 "VERTEX_POSITION" = 5 := by
  refine ⟨rfl, rfl, rfl, rfl⟩

/-- C2 amended: the uniform and attribute caches are keyed by name alone,
not by the pair of program and name: once a name has been cached by a call
with one program, a call with any other program and the same name returns
the first program's slot (without consulting the GL introspection again),
even if the second program binds that name to a different slot. -/
theorem locationCaches_keyed_by_name_alone (glU glA : ℕ → String → ℤ)
    (c cA : List (String × ℤ)) (p1 p2 : ℕ) (name : String)
    (hU : c.lookup name = none) (hA : cA.lookup name = none) :
    ((getUniformLocation glU (getUniformLocation glU c p1 name).cache p2 name).val
        = glU p1 name ∧
      (getUniformLocation glU (getUniformLocation glU c p1 name).cache p2 name).queried
        = false) ∧
    ((getAttribLocation glA (getAttribLocation glA cA p1 name).cache p2 name).val
        = glA p1 name ∧
      (getAttribLocation glA (getAttribLocation glA cA p1 name).cache p2 name).queried
        = false) := by
  simp [getUniformLocation, getAttribLocation, hU, hA, List.lookup]

/-- C2 amended witness: a concrete instance of the name-collision behavior,
with an empty initial cache and programs 1 and 2. -/
theorem locationCaches_keyed_by_name_alone_instance :
    ((getUniformLocation glGetTwoPrograms
        (getUniformLocation glGetTwoPrograms [] 1 "DIFFUSE_COLOR").cache
        2 "DIFFUSE_COLOR").val = glGetTwoPrograms 1 "DIFFUSE_COLOR" ∧
      (getUniformLocation glGetTwoPrograms
        (getUniformLocation glGetTwoPrograms [] 1 "DIFFUSE_COLOR").cache
        2 "DIFFUSE_COLOR").queried = false) ∧
    ((getAttribLocation glGetTwoPrograms
        (getAttribLocation glGetTwoPrograms [] 1 "VERTEX_UV_0").cache
        2 "VERTEX_UV_0").val = glGetTwoPrograms 1 "VERTEX_UV_0" ∧
      (getAttribLocation glGetTwoPrograms
        (getAttribLocation glGetTwoPrograms [] 1 "VERTEX_UV_0").cache
        2 "VERTEX_UV_0").queried = false) :=
  locationCaches_keyed_by_name_alone glGetTwoPrograms glGetTwoPrograms
    [] [] 1 2 _ rfl rfl

/-- C6: both getters are idempotent for a fixed program and name: a second
call with the same program and name returns the first call's value and does
not invoke the GL introspection query again; and when the name is not yet
cached and is absent from the program (the oracle reports -1), the first
call returns -1 and stores -1 in the cache. -/
theorem locationCaches_idempotent (glU glA : ℕ → String → ℤ) (prog : ℕ)
    (name : String) (c cA : List (String × ℤ)) :
    ((getUniformLocation glU (getUniformLocation glU c prog name).cache prog name).val
        = (getUniformLocation glU c prog name).val ∧
      (getUniformLocation glU (getUniformLocation glU c prog name).cache prog name).queried
        = false) ∧
    ((getAttribLocation glA (getAttribLocation glA cA prog name).cache prog name).val
        = (getAttribLocation glA cA prog name).val ∧
      (getAttribLocation glA (getAttribLocation glA cA prog name).cache prog name).queried
        = false) ∧
    (c.lookup name = none → glU prog name = -1 →
      (getUniformLocation glU c prog name).val = -1 ∧
      (getUniformLocation glU c prog name).cache.lookup name = some (-1)) ∧
    (cA.lookup name = none → glA prog name = -1 →
      (getAttribLocation glA cA prog name).val = -1 ∧
      (getAttribLocation glA cA prog name).cache.lookup name = some (-1)) := by
  refine ⟨?_, ?_, ?_, ?_⟩
  · cases h : c.lookup name <;> simp [getUniformLocation, h, List.lookup]
  · cases h : cA.lookup name <;> simp [getAttribLocation, h, List.lookup]
  · intro h hg
    simp [getUniformLocation, h, hg, List.lookup]
  · intro h hg
    simp [getAttribLocation, h, hg, List.lookup]

/-- C6 witness: concrete instance with an absent name, where the oracle
reports -1 for every query. -/
theorem locationCaches_idempotent_instance :
    ((getUniformLocation (fun _ _ => -1)
        (getUniformLocation (fun _ _ => -1) [] 1 "DIFFUSE_TEX").cache 1 "DIFFUSE_TEX").val
        = (getUniformLocation (fun _ _ => -1) [] 1 "DIFFUSE_TEX").val ∧
      (getUniformLocation (fun _ _ => -1)
        (getUniformLocation (fun _ _ => -1) [] 1 "DIFFUSE_TEX").cache 1 "DIFFUSE_TEX").queried
        = false) ∧
    ((getAttribLocation (fun _ _ => -1)
        (getAttribLocation (fun _ _ => -1) [] 1 "VERTEX_UV_0").cache 1 "VERTEX_UV_0").val
        = (getAttribLocation (fun _ _ => -1) [] 1 "VERTEX_UV_0").val ∧
      (getAttribLocation (fun _ _ => -1)
        (getAttribLocation (fun _ _ => -1) [] 1 "VERTEX_UV_0").cache 1 "VERTEX_UV_0").queried
        = false) ∧
    ((getUniformLocation (fun _ _ => -1) [] 1 "DIFFUSE_TEX").val = -1 ∧
      (getUniformLocation (fun _ _ => -1) [] 1 "DIFFUSE_TEX").cache.lookup "DIFFUSE_TEX"
        = some (-1)) ∧
    ((getAttribLocation (fun _ _ => -1) [] 1 "VERTEX_UV_0").val = -1 ∧
      (getAttribLocation (fun _ _ => -1) [] 1 "VERTEX_UV_0").cache.lookup "VERTEX_UV_0"
        = some (-1)) := by
  exact ⟨(locationCaches_idempotent (fun _ _ => -1) (fun _ _ => -1) 1 "DIFFUSE_TEX" [] []).1,
    (locationCaches_idempotent (fun _ _ => -1) (fun _ _ => -1) 1 "VERTEX_UV_0" [] []).2.1,
    (locationCaches_idempotent (fun _ _ => -1) (fun _ _ => -1) 1 "DIFFUSE_TEX" [] []).2.2.1 rfl rfl,
    (locationCaches_idempotent (fun _ _ => -1) (fun _ _ => -1) 1 "VERTEX_UV_0" [] []).2.2.2 rfl rfl⟩

/-- C7: the per-frame update step performs exactly the sequence integrate,
recalculate derived data, copy the body's position and orientation into the
Renderable's Location and LocalRotation, check against the one fixed ground
half-space (normal (0,1,0), offset 0), and, exactly when contacts were
found, resolve them with an iteration budget of 8 times the contact
count. -/
theorem updateCallback_sequence {Contact : Type} (E : PhysicsEngine Contact)
    (collider : CollisionCube) (cube : Renderable) (delta : ℚ) :
    (updateCallback E collider cube delta).2 =
      [.integrate delta, .calculateDerivedData,
        .checkAgainstHalfSpace ⟨⟨0, 1, 0⟩, 0⟩] ++
      (if (E.checkAgainstHalfSpace
            (E.calculateDerivedData
              { collider with Body := E.integrate collider.Body delta })
            ⟨⟨0, 1, 0⟩, 0⟩).1 then
        [.resolveContacts
          (8 * (E.checkAgainstHalfSpace
            (E.calculateDerivedData
              { collider with Body := E.integrate collider.Body delta })
            ⟨⟨0, 1, 0⟩, 0⟩).2.length)
          (E.checkAgainstHalfSpace
            (E.calculateDerivedData
              { collider with Body := E.integrate collider.Body delta })
            ⟨⟨0, 1, 0⟩, 0⟩).2 delta]
      else []) ∧
    ((updateCallback E collider cube delta).1.2.Location =
      (E.calculateDerivedData
        { collider with Body := E.integrate collider.Body delta }).Body.Position ∧
     (updateCallback E collider cube delta).1.2.LocalRotation =
      ⟨(E.calculateDerivedData
          { collider with Body := E.integrate collider.Body delta }).Body.Orientation.r,
        ⟨(E.calculateDerivedData
            { collider with Body := E.integrate collider.Body delta }).Body.Orientation.i,
          (E.calculateDerivedData
            { collider with Body := E.integrate collider.Body delta }).Body.Orientation.j,
          (E.calculateDerivedData
            { collider with Body := E.integrate collider.Body delta }).Body.Orientation.k⟩⟩) := by
  refine ⟨?_, rfl, rfl⟩
  simp only [updateCallback, updateObjects, generateContacts, Nat.mul_comm,
    List.append_assoc, List.cons_append, List.nil_append, List.singleton_append]

/-- C8: with both callbacks installed, every loop iteration checks the
should-close flag first (a set flag yields no events and leaves the state
untouched), and an iteration entered with the flag clear emits exactly
update, render, buffer swap, event poll in that order and recurses — for
arbitrary callbacks, swap and poll, so even when one of them sets the flag
mid-iteration the iteration still completes and the flag takes effect only
at the next iteration boundary. -/
theorem renderLoop_iteration_order {α : Type}
    (u r : ℚ → AppState α → AppState α) (sw pe : AppState α → AppState α)
    (now : ℕ → ℚ) (fuel callIdx : ℕ) (lt : ℚ) (s : AppState α) :
    (s.shouldClose = true →
      renderLoopAux ⟨some u, some r, sw, pe, now⟩ (fuel + 1) callIdx lt s
        = ([], [], s)) ∧
    (s.shouldClose = false →
      renderLoopAux ⟨some u, some r, sw, pe, now⟩ (fuel + 1) callIdx lt s
        = ([.update (now callIdx - lt), .render (now callIdx - lt),
            .swapBuffers, .pollEvents] ++
            (renderLoopAux ⟨some u, some r, sw, pe, now⟩ fuel (callIdx + 1)
              (now callIdx)
              (pe (sw (r (now callIdx - lt) (u (now callIdx - lt) s))))).1,
           (now callIdx - lt) ::
            (renderLoopAux ⟨some u, some r, sw, pe, now⟩ fuel (callIdx + 1)
              (now callIdx)
              (pe (sw (r (now callIdx - lt) (u (now callIdx - lt) s))))).2.1,
           (renderLoopAux ⟨some u, some r, sw, pe, now⟩ fuel (callIdx + 1)
              (now callIdx)
              (pe (sw (r (now callIdx - lt) (u (now callIdx - lt) s))))).2.2)) := by
  constructor
  · intro h
    simp [renderLoopAux, h]
  · intro h
    simp [renderLoopAux, h, loopIterEvents]

/-- C8 witness: with the flag already set the iteration emits nothing, and
from a clear flag the iteration runs to completion — update, render, swap,
poll — even though the event poll sets the flag, which then stops the loop
at the next boundary. -/
theorem renderLoop_iteration_order_instance :
    (⟨true, ()⟩ : AppState Unit).shouldClose = true ∧
    renderLoopAux envPollCloses 1 1 0 ⟨true, ()⟩ = ([], [], ⟨true, ()⟩) ∧
    (⟨false, ()⟩ : AppState Unit).shouldClose = false ∧
    renderLoopAux envPollCloses 2 1 0 ⟨false, ()⟩
      = ([.update ((0 : ℚ) - 0), .render ((0 : ℚ) - 0),
          .swapBuffers, .pollEvents], [(0 : ℚ) - 0], ⟨true, ()⟩) := by
  refine ⟨rfl, ?_, rfl, ?_⟩
  · exact (renderLoop_iteration_order (fun _ s => s) (fun _ s => s) id
      (fun s => ⟨true, s.data⟩) (fun _ => 0) 0 1 0 ⟨true, ()⟩).1 rfl
  · have h := (renderLoop_iteration_order (fun _ s => s) (fun _ s => s) id
      (fun s => ⟨true, s.data⟩) (fun _ => 0) 1 1 0 ⟨false, ()⟩).2 rfl
    exact h.trans (by simp [renderLoopAux, envPollCloses])

/-- All deltas a run of the loop body produces are non-negative when the
clock is monotone and the incoming last sample is no later than the next
clock sample. -/
theorem renderLoopAux_deltas_nonneg {α : Type} (env : LoopEnv α)
    (h : ∀ k, env.now k ≤ env.now (k + 1)) :
    ∀ (fuel callIdx : ℕ) (lt : ℚ) (s : AppState α), lt ≤ env.now callIdx →
      ∀ d ∈ (renderLoopAux env fuel callIdx lt s).2.1, 0 ≤ d := by
  intro fuel
  induction fuel with
  | zero =>
    intro i lt s hlt d hd
    simp [renderLoopAux] at hd
  | succ n ih =>
    intro i lt s hlt d hd
    by_cases hc : s.shouldClose
    · simp [renderLoopAux, hc] at hd
    · simp only [renderLoopAux, hc, if_neg, Bool.false_eq_true, ite_false,
        List.mem_cons] at hd
      rcases hd with rfl | hd
      · exact sub_nonneg.2 hlt
      · exact ih (i + 1) (env.now i) _ (h i) d hd

/-- C9: under a monotone time source every delta the render loop computes is
non-negative, and the first iteration's delta is well defined as the
difference of clock call 1 and the pre-loop sample (call 0), since the last
render time is set before the loop starts. -/
theorem renderLoop_deltas_nonneg {α : Type} (env : LoopEnv α) (fuel : ℕ)
    (s : AppState α) (h : ∀ k, env.now k ≤ env.now (k + 1)) :
    (∀ d ∈ (RenderLoop env fuel s).2.1, 0 ≤ d) ∧
    (s.shouldClose = false → 0 < fuel →
      (RenderLoop env fuel s).2.1.head? = some (env.now 1 - env.now 0)) := by
  constructor
  · exact renderLoopAux_deltas_nonneg env h fuel 1 (env.now 0) s (h 0)
  · intro hc hf
    obtain ⟨n, rfl⟩ : ∃ n, fuel = n + 1 :=
      ⟨fuel - 1, (Nat.succ_pred_eq_of_pos hf).symm⟩
    simp [RenderLoop, renderLoopAux, hc]

/-- C9 witness: a concrete run of two iterations with a constant clock; the
deltas exist, are non-negative, and the first one is the difference of the
first in-loop sample and the pre-loop sample. -/
theorem renderLoop_deltas_nonneg_instance :
    (∀ d ∈ (RenderLoop envPollCloses 2 ⟨false, ()⟩).2.1, 0 ≤ d) ∧
    (RenderLoop envPollCloses 2 ⟨false, ()⟩).2.1.head?
      = some (envPollCloses.now 1 - envPollCloses.now 0) :=
  ⟨(renderLoop_deltas_nonneg envPollCloses 2 ⟨false, ()⟩ (fun _ => le_refl 0)).1,
   (renderLoop_deltas_nonneg envPollCloses 2 ⟨false, ()⟩ (fun _ => le_refl 0)).2
      rfl (by decide)⟩
